import Mathlib

/-
Verification of the camera / spatial-transform core of the `graphics_wgpu`
repository (src/camera.rs, src/input.rs, src/lin_alg.rs, with the axis
constants of src/graphics.rs and src/init_graphics.rs and the size
constants of src/types.rs).

Embedding conventions:
* `f32` values are modelled as exact rationals (`ℚ`).  All claims settled
  here concern branch structure, entry layout and arithmetic that is exact
  at the inputs involved, so the field axioms of `ℚ` are a faithful model.
* The transcendental `f32` operations `sin`, `cos`, `tan` have no rational
  counterpart; functions that call them (`Quaternion::from_axis_angle`,
  `Mat4::new_perspective_rh`, `adjust_camera`) take the corresponding
  function `ℚ → ℚ` as an explicit parameter, and the theorems below hold
  for every choice of that parameter.
* `&mut` state is modelled by explicit state passing: `adjust_camera`
  returns the updated camera together with its `bool` result.
* Flat `[f32; N]` arrays are modelled as functions `Fin N → ℚ`.
-/

namespace Gfx

/-- Rational literal for the f32 literal `0.00001` used as epsilon in
`input.rs`. -/
def inputEps : ℚ := 1 / 100000

/-- Builds a `Fin 9 → ℚ` array from nine entries, mirroring a `[f32; 9]`
array literal. The default branch is unreachable since indices are `Fin 9`. -/
def m9 (a0 a1 a2 a3 a4 a5 a6 a7 a8 : ℚ) : Fin 9 → ℚ :=
  fun i =>
    match i.val with
    | 0 => a0 | 1 => a1 | 2 => a2
    | 3 => a3 | 4 => a4 | 5 => a5
    | 6 => a6 | 7 => a7 | _ => a8

/-- Builds a `Fin 16 → ℚ` array from sixteen entries, mirroring a `[f32; 16]`
array literal. The default branch is unreachable since indices are `Fin 16`. -/
def m16 (a0 a1 a2 a3 a4 a5 a6 a7 a8 a9 a10 a11 a12 a13 a14 a15 : ℚ) :
    Fin 16 → ℚ :=
  fun i =>
    match i.val with
    | 0 => a0 | 1 => a1 | 2 => a2 | 3 => a3
    | 4 => a4 | 5 => a5 | 6 => a6 | 7 => a7
    | 8 => a8 | 9 => a9 | 10 => a10 | 11 => a11
    | 12 => a12 | 13 => a13 | 14 => a14 | _ => a15

/-- Source: `lin_alg.rs`, `struct Vec3` — a len-3 column vector. -/
structure Vec3 where
  x : ℚ
  y : ℚ
  z : ℚ
deriving DecidableEq

namespace Vec3

/-- Source: `lin_alg.rs`, `Vec3::new`. -/
def new (x y z : ℚ) : Vec3 := ⟨x, y, z⟩

/-- Source: `lin_alg.rs`, `Vec3::new_zero`. -/
def new_zero : Vec3 := ⟨0, 0, 0⟩

/-- Source: `lin_alg.rs`, `Vec3::dot`. -/
def dot (a b : Vec3) : ℚ := a.x * b.x + a.y * b.y + a.z * b.z

end Vec3

/-- Source: `lin_alg.rs`, `impl Add for Vec3`. -/
instance : Add Vec3 :=
  ⟨fun a b => ⟨a.x + b.x, a.y + b.y, a.z + b.z⟩⟩

/-- Source: `lin_alg.rs`, `impl Mul<f32> for Vec3` (scalar on the right). -/
instance : HMul Vec3 ℚ Vec3 :=
  ⟨fun v s => ⟨v.x * s, v.y * s, v.z * s⟩⟩

/-- Source: `lin_alg.rs`, `impl Neg for Vec3`. -/
instance : Neg Vec3 :=
  ⟨fun v => ⟨-v.x, -v.y, -v.z⟩⟩

/-- Source: `lin_alg.rs`, `struct Vec4` — a len-4 column vector. -/
structure Vec4 where
  x : ℚ
  y : ℚ
  z : ℚ
  w : ℚ
deriving DecidableEq

namespace Vec4

/-- Source: `lin_alg.rs`, `Vec4::new` (last parameter is named `u` there). -/
def new (x y z u : ℚ) : Vec4 := ⟨x, y, z, u⟩

/-- Source: `lin_alg.rs`, `Vec4::truncate_n` — removes the `n`-th element.
The source panics for `n > 3`; that branch is unreachable at every call
site (the inverse routine only passes 0..3), and is modelled as the zero
vector. -/
def truncate_n (v : Vec4) (n : ℕ) : Vec3 :=
  match n with
  | 0 => Vec3.new v.y v.z v.w
  | 1 => Vec3.new v.x v.z v.w
  | 2 => Vec3.new v.x v.y v.w
  | 3 => Vec3.new v.x v.y v.z
  | _ => Vec3.new_zero

end Vec4

/-- Source: `lin_alg.rs`, `struct Quaternion` with fields `w, x, y, z`. -/
structure Quaternion where
  w : ℚ
  x : ℚ
  y : ℚ
  z : ℚ
deriving DecidableEq

/-- Source: `lin_alg.rs`, `impl Mul<Self> for Quaternion` (Hamilton product). -/
instance : Mul Quaternion :=
  ⟨fun a b =>
    { w := a.w * b.w - a.x * b.x - a.y * b.y - a.z * b.z
      x := a.w * b.x + a.x * b.w + a.y * b.z - a.z * b.y
      y := a.w * b.y - a.x * b.z + a.y * b.w + a.z * b.x
      z := a.w * b.z + a.x * b.y - a.y * b.x + a.z * b.w }⟩

/-- Source: `lin_alg.rs`, `impl Mul<Vec3> for Quaternion` — the vector is
treated as a quaternion with `w = 0`, post-multiplied. -/
instance : HMul Quaternion Vec3 Quaternion :=
  ⟨fun q v =>
    { w := -q.x * v.x - q.y * v.y - q.z * v.z
      x := q.w * v.x + q.y * v.z - q.z * v.y
      y := q.w * v.y - q.x * v.z + q.z * v.x
      z := q.w * v.z + q.x * v.y - q.y * v.x }⟩

namespace Quaternion

/-- Source: `lin_alg.rs`, `Quaternion::new_identity`. -/
def new_identity : Quaternion := ⟨1, 0, 0, 0⟩

/-- Source: `lin_alg.rs`, `Quaternion::inverse` (conjugate). -/
def inverse (q : Quaternion) : Quaternion := ⟨q.w, -q.x, -q.y, -q.z⟩

/-- Source: `lin_alg.rs`, `Quaternion::to_vec` — discards `w`. -/
def to_vec (q : Quaternion) : Vec3 := ⟨q.x, q.y, q.z⟩

/-- Source: `lin_alg.rs`, `Quaternion::rotate_vec`:
`(self * vec * self.inverse()).to_vec()`. -/
def rotate_vec (q : Quaternion) (vec : Vec3) : Vec3 :=
  (q * vec * q.inverse).to_vec

/-- Source: `lin_alg.rs`, `Quaternion::from_axis_angle`.
`sin` and `cos` are the f32 trigonometric functions, abstracted. -/
def from_axis_angle (sin cos : ℚ → ℚ) (axis : Vec3) (angle : ℚ) : Quaternion :=
  let factor := sin (angle / 2)
  { w := cos (angle / 2)
    x := axis.x * factor
    y := axis.y * factor
    z := axis.z * factor }

end Quaternion

/-- Source: `lin_alg.rs`, `struct Mat3` — a 3x3 matrix, data column-major. -/
structure Mat3 where
  data : Fin 9 → ℚ

instance : DecidableEq Mat3 := fun a b =>
  decidable_of_iff (∀ i, a.data i = b.data i)
    (by cases a; cases b; simp [Mat3.mk.injEq, funext_iff])

namespace Mat3

/-- Source: `lin_alg.rs`, `Mat3::new`. -/
def new (data : Fin 9 → ℚ) : Mat3 := ⟨data⟩

/-- Source: `lin_alg.rs`, `Mat3::from_cols` — a matrix from column vectors. -/
def from_cols (x y z : Vec3) : Mat3 :=
  new (m9 x.x x.y x.z y.x y.y y.z z.x z.y z.z)

/-- Source: `lin_alg.rs`, `Mat3::determinant` (rule of Sarrus on the
column-major data). -/
def determinant (m : Mat3) : ℚ :=
  let d := m.data
  d 0 * d 4 * d 8 +
  d 3 * d 7 * d 2 +
  d 6 * d 1 * d 5 -
  d 0 * d 7 * d 5 -
  d 3 * d 1 * d 8 -
  d 6 * d 4 * d 2

/-- Source: `lin_alg.rs`, `Mat3::new_identity`. -/
def new_identity : Mat3 := new (m9 1 0 0 0 1 0 0 0 1)

end Mat3

/-- Source: `lin_alg.rs`, `Quaternion::to_matrix` — quaternion to a 3x3
rotation matrix, with the common products precomputed. -/
def Quaternion.to_matrix (q : Quaternion) : Mat3 :=
  let qwqw := q.w * q.w
  let qwqx := q.w * q.x
  let qwqy := q.w * q.y
  let qwqz := q.w * q.z
  let qxqy := q.x * q.y
  let qxqz := q.x * q.z
  let qyqz := q.y * q.z
  Mat3.new (m9
    (2 * (qwqw - 1/2 + q.x * q.x))
    (2 * (qxqy + qwqz))
    (2 * (qxqz - qwqy))
    (2 * (qxqy - qwqz))
    (2 * (qwqw - 1/2 + q.y * q.y))
    (2 * (qyqz + qwqx))
    (2 * (qxqz + qwqy))
    (2 * (qyqz - qwqx))
    (2 * (qwqw - 1/2 + q.z * q.z)))

/-- Source: `lin_alg.rs`, `struct Mat4` — a 4x4 matrix, data column-major. -/
structure Mat4 where
  data : Fin 16 → ℚ

instance : DecidableEq Mat4 := fun a b =>
  decidable_of_iff (∀ i, a.data i = b.data i)
    (by cases a; cases b; simp [Mat4.mk.injEq, funext_iff])

namespace Mat4

/-- Source: `lin_alg.rs`, `Mat4::new`. -/
def new (data : Fin 16 → ℚ) : Mat4 := ⟨data⟩

/-- Source: `lin_alg.rs`, `Mat4::new_identity`. -/
def new_identity : Mat4 :=
  new (m16 1 0 0 0 0 1 0 0 0 0 1 0 0 0 0 1)

/-- Source: `lin_alg.rs`, `Mat4::new_translation` — translation by a len-3
vector, in the fourth column of the column-major data. -/
def new_translation (val : Vec3) : Mat4 :=
  new (m16 1 0 0 0 0 1 0 0 0 0 1 0 val.x val.y val.z 1)

/-- Source: `lin_alg.rs`, `Mat4::new_perspective_rh`. `tan` is the f32
tangent function, abstracted. -/
def new_perspective_rh (tan : ℚ → ℚ) (fov_y aspect_ratio near far : ℚ) :
    Mat4 :=
  let f := 1 / tan (fov_y / 2)
  let range_inv := 1 / (near - far)
  new (m16
    (f / aspect_ratio) 0 0 0
    0 f 0 0
    0 0 (far * range_inv) (-1)
    0 0 ((far * near) * range_inv) 0)

/-- Source: `lin_alg.rs`, `Mat4::determinant` — the source's direct formula
on the column-major data, embedded verbatim. -/
def determinant (m : Mat4) : ℚ :=
  let d := m.data
  d 0 * d 5 * d 10 * d 15 +
  d 4 * d 9 * d 14 * d 3 +
  d 8 * d 13 * d 2 * d 7 +
  d 12 * d 1 * d 6 * d 11 -
  d 0 * d 13 * d 10 * d 7 -
  d 4 * d 1 * d 14 * d 11 -
  d 8 * d 5 * d 2 * d 15 -
  d 12 * d 9 * d 6 * d 3

/-- Source: `lin_alg.rs`, `Mat4::transpose`. -/
def transpose (m : Mat4) : Mat4 :=
  let d := m.data
  new (m16
    (d 0) (d 4) (d 8) (d 12)
    (d 1) (d 5) (d 9) (d 13)
    (d 2) (d 6) (d 10) (d 14)
    (d 3) (d 7) (d 11) (d 15))

/-- Source: `lin_alg.rs`, `Mat4::to_cols` — returns columns x, y, z, w. -/
def to_cols (m : Mat4) : Vec4 × Vec4 × Vec4 × Vec4 :=
  let d := m.data
  (Vec4.new (d 0) (d 1) (d 2) (d 3),
   Vec4.new (d 4) (d 5) (d 6) (d 7),
   Vec4.new (d 8) (d 9) (d 10) (d 11),
   Vec4.new (d 12) (d 13) (d 14) (d 15))

/-- Source: `lin_alg.rs`, the closure `cf` inside `Mat4::inverse`: the 3x3
minor built from the transposed columns by `truncate_n`, with checkerboard
sign, times the reciprocal determinant. -/
def inverse_cf (t_x t_y t_z t_w : Vec4) (inv_det : ℚ) (i j : ℕ) : ℚ :=
  let mat :=
    match i with
    | 0 => Mat3.from_cols (t_y.truncate_n j) (t_z.truncate_n j) (t_w.truncate_n j)
    | 1 => Mat3.from_cols (t_x.truncate_n j) (t_z.truncate_n j) (t_w.truncate_n j)
    | 2 => Mat3.from_cols (t_x.truncate_n j) (t_y.truncate_n j) (t_w.truncate_n j)
    | 3 => Mat3.from_cols (t_x.truncate_n j) (t_y.truncate_n j) (t_z.truncate_n j)
    | _ => Mat3.new_identity
  let sign : ℚ := if (i + j) % 2 = 1 then -1 else 1
  mat.determinant * sign * inv_det

/-- Source: `lin_alg.rs`, `Mat4::inverse` — cofactor/adjugate method; `None`
when the determinant is exactly zero. The out-of-range arm of the source's
`cf` closure panics and is unreachable; it is modelled by the identity. -/
def inverse (m : Mat4) : Option Mat4 :=
  let det := m.determinant
  if det = 0 then
    none
  else
    let inv_det := 1 / det
    let t := m.transpose
    let (t_x, t_y, t_z, t_w) := t.to_cols
    let cf := inverse_cf t_x t_y t_z t_w inv_det
    some (new (m16
      (cf 0 0) (cf 0 1) (cf 0 2) (cf 0 3)
      (cf 1 0) (cf 1 1) (cf 1 2) (cf 1 3)
      (cf 2 0) (cf 2 1) (cf 2 2) (cf 2 3)
      (cf 3 0) (cf 3 1) (cf 3 2) (cf 3 3)))

/-- Source: `lin_alg.rs`, `impl From<[[f32; 4]; 4]> for Mat4`, embedded
verbatim: note that the source fills slots 7 and 11 from `m[0][3]` (not
`m[1][3]` / `m[2][3]`). -/
def from_arr (m : Fin 4 → Fin 4 → ℚ) : Mat4 :=
  new (m16
    (m 0 0) (m 0 1) (m 0 2) (m 0 3)
    (m 1 0) (m 1 1) (m 1 2) (m 0 3)
    (m 2 0) (m 2 1) (m 2 2) (m 0 3)
    (m 3 0) (m 3 1) (m 3 2) (m 3 3))

/-- Source: `lin_alg.rs`, `impl From<Mat4> for [[f32; 4]; 4]`: outer index
`i` selects the slice `data[4*i .. 4*i+4]`. -/
def to_arr (m : Mat4) : Fin 4 → Fin 4 → ℚ :=
  fun i j => m.data ⟨4 * i.val + j.val, by omega⟩

end Mat4

/-- Source: `lin_alg.rs`, `impl Mul<Self> for Mat4`, embedded verbatim:
the source computes `a00..a33` (named a(column)(row) in its comment) and
stores them in the order `[a00, a01, a02, a03, a10, ...]`, so slot
`4*i + j` of the result holds `aij`. -/
instance : Mul Mat4 :=
  ⟨fun m rhs =>
    let d := m.data
    let rd := rhs.data
    Mat4.new (m16
      (d 0 * rd 0 + d 4 * rd 1 + d 8 * rd 2 + d 12 * rd 3)
      (d 0 * rd 4 + d 4 * rd 5 + d 8 * rd 6 + d 12 * rd 7)
      (d 0 * rd 8 + d 4 * rd 9 + d 8 * rd 10 + d 12 * rd 11)
      (d 0 * rd 12 + d 4 * rd 13 + d 8 * rd 14 + d 12 * rd 15)
      (d 1 * rd 0 + d 5 * rd 1 + d 9 * rd 2 + d 13 * rd 3)
      (d 1 * rd 4 + d 5 * rd 5 + d 9 * rd 6 + d 13 * rd 7)
      (d 1 * rd 8 + d 5 * rd 9 + d 9 * rd 10 + d 13 * rd 11)
      (d 1 * rd 12 + d 5 * rd 13 + d 9 * rd 14 + d 13 * rd 15)
      (d 2 * rd 0 + d 6 * rd 1 + d 10 * rd 2 + d 14 * rd 3)
      (d 2 * rd 4 + d 6 * rd 5 + d 10 * rd 6 + d 14 * rd 7)
      (d 2 * rd 8 + d 6 * rd 9 + d 10 * rd 10 + d 14 * rd 11)
      (d 2 * rd 12 + d 6 * rd 13 + d 10 * rd 14 + d 14 * rd 15)
      (d 3 * rd 0 + d 7 * rd 1 + d 11 * rd 2 + d 15 * rd 3)
      (d 3 * rd 4 + d 7 * rd 5 + d 11 * rd 6 + d 15 * rd 7)
      (d 3 * rd 8 + d 7 * rd 9 + d 11 * rd 10 + d 15 * rd 11)
      (d 3 * rd 12 + d 7 * rd 13 + d 11 * rd 14 + d 15 * rd 15))⟩

/-- Source: `graphics.rs` / `init_graphics.rs`, `UP_VEC = (0, 1, 0)`. -/
def UP_VEC : Vec3 := ⟨0, 1, 0⟩

/-- Source: `graphics.rs` / `init_graphics.rs`, `RIGHT_VEC = (1, 0, 0)`. -/
def RIGHT_VEC : Vec3 := ⟨1, 0, 0⟩

/-- Source: `graphics.rs` / `init_graphics.rs`, `FWD_VEC = (0, 0, 1)`. -/
def FWD_VEC : Vec3 := ⟨0, 0, 1⟩

/-- Source: `types.rs`, `F32_SIZE = 4`. -/
def F32_SIZE : ℕ := 4

/-- Source: `types.rs`, `MAT4_SIZE = 16 * F32_SIZE`. -/
def MAT4_SIZE : ℕ := 16 * F32_SIZE

/-- Source: `camera.rs`, `CAM_UNIFORM_SIZE = 2 * MAT4_SIZE + 4 * F32_SIZE`. -/
def CAM_UNIFORM_SIZE : ℕ := 2 * MAT4_SIZE + 4 * F32_SIZE

/-- Modelled from the spec: `Mat4::to_bytes` is called by
`CameraUniform::to_bytes` in `camera.rs` but is not defined anywhere under
`src/`.  Per the spec it serializes the 16 column-major floats
consecutively, 4 little/native-endian bytes each; the f32-to-4-bytes
encoding itself is abstracted as the parameter `enc`. -/
def Mat4.to_bytes (enc : ℚ → List ℕ) (m : Mat4) : List ℕ :=
  enc (m.data 0) ++ enc (m.data 1) ++ enc (m.data 2) ++ enc (m.data 3) ++
  enc (m.data 4) ++ enc (m.data 5) ++ enc (m.data 6) ++ enc (m.data 7) ++
  enc (m.data 8) ++ enc (m.data 9) ++ enc (m.data 10) ++ enc (m.data 11) ++
  enc (m.data 12) ++ enc (m.data 13) ++ enc (m.data 14) ++ enc (m.data 15)

/-- Source: `camera.rs`, `struct CameraUniform`. -/
structure CameraUniform where
  proj_view_mat : Mat4
  proj_mat_inv : Mat4
  position : Vec3

/-- Source: `camera.rs`, `CameraUniform::to_bytes` — writes, in order, the
proj-view matrix into bytes `[0, 64)`, the inverse projection matrix into
`[64, 128)`, the position components into `[128, 140)` and the f32 literal
`1.0` into `[140, 144)`.  The byte ranges of the source's
`clone_from_slice` calls are contiguous, so the result is the
concatenation below; `enc` abstracts `f32::to_le_bytes`. -/
def CameraUniform.to_bytes (enc : ℚ → List ℕ) (u : CameraUniform) :
    List ℕ :=
  u.proj_view_mat.to_bytes enc ++ u.proj_mat_inv.to_bytes enc ++
  enc u.position.x ++ enc u.position.y ++ enc u.position.z ++ enc 1

/-- Source: `camera.rs`, `struct Camera`. -/
structure Camera where
  fov_y : ℚ
  aspect : ℚ
  near : ℚ
  far : ℚ
  position : Vec3
  orientation : Quaternion
  proj_mat : Mat4
deriving DecidableEq

namespace Camera

/-- Source: `camera.rs`, `Camera::view_mat` — built from the transposed
entries of `orientation.to_matrix()` and a final column of dot products
against the axis constants. -/
def view_mat (cam : Camera) : Mat4 :=
  let mat := cam.orientation.to_matrix
  Mat4.new (m16
    (mat.data 0) (mat.data 3) (mat.data 6) 0
    (mat.data 1) (mat.data 4) (mat.data 7) 0
    (mat.data 2) (mat.data 5) (mat.data 8) 0
    (-(cam.position.dot RIGHT_VEC)) (-(cam.position.dot UP_VEC))
    (cam.position.dot FWD_VEC) 1)

/-- Source: `camera.rs`, `Camera::to_uniform` — the inverse projection
matrix is the identity (a `todo temp` in the source). -/
def to_uniform (cam : Camera) : CameraUniform :=
  let proj_mat_inv := Mat4.new_identity
  { position := cam.position
    proj_view_mat := cam.proj_mat * cam.view_mat
    proj_mat_inv := proj_mat_inv }

end Camera

/-- Source: `input.rs`, `struct InputsCommanded`. -/
structure InputsCommanded where
  fwd : Bool
  back : Bool
  left : Bool
  right : Bool
  up : Bool
  down : Bool
  roll_ccw : Bool
  roll_cw : Bool
  mouse_delta_x : ℚ
  mouse_delta_y : ℚ
  run : Bool
  free_look : Bool
deriving DecidableEq

/-- Source: `types.rs`, `struct InputSettings` — the sensitivity and run
settings read by `adjust_camera`.  The remaining field `initial_controls`
is never read by `adjust_camera` and is omitted. -/
structure InputSettings where
  move_sens : ℚ
  rotate_sens : ℚ
  rotate_key_sens : ℚ
  run_factor : ℚ
deriving DecidableEq

/-- Source: `input.rs`, `adjust_camera`, movement block — the three
if/else-if pairs that accumulate `movement_vec` (starting from
`Vec3::new_zero`) and set `cam_moved`, threaded as an explicit
(vector, flag) state. -/
def move_pass (inputs : InputsCommanded) (move_amt : ℚ) : Vec3 × Bool :=
  let s : Vec3 × Bool := (Vec3.new_zero, false)
  let s := if inputs.fwd then ({ s.1 with z := s.1.z + move_amt }, true)
           else if inputs.back then ({ s.1 with z := s.1.z - move_amt }, true)
           else s
  let s := if inputs.right then ({ s.1 with x := s.1.x + move_amt }, true)
           else if inputs.left then ({ s.1 with x := s.1.x - move_amt }, true)
           else s
  let s := if inputs.up then ({ s.1 with y := s.1.y + move_amt }, true)
           else if inputs.down then ({ s.1 with y := s.1.y - move_amt }, true)
           else s
  s

/-- Source: `input.rs`, `adjust_camera`, rotation block — the roll
if/else-if pair followed by the free-look mouse branch, accumulating
`rotation` (starting from the identity quaternion) and `cam_rotated`,
threaded as an explicit (quaternion, flag) state.  `fwd`, `up`, `right`
are the world-space axes already rotated by the camera's orientation. -/
def rotate_pass (sin cos : ℚ → ℚ) (inputs : InputsCommanded)
    (fwd up right : Vec3) (rotate_amt rotate_key_amt : ℚ) :
    Quaternion × Bool :=
  let s : Quaternion × Bool := (Quaternion.new_identity, false)
  let s := if inputs.roll_cw then
             (Quaternion.from_axis_angle sin cos fwd (-rotate_key_amt), true)
           else if inputs.roll_ccw then
             (Quaternion.from_axis_angle sin cos fwd rotate_key_amt, true)
           else s
  let eps := inputEps
  let s := if inputs.free_look ∧
              (eps < |inputs.mouse_delta_x| ∨ eps < |inputs.mouse_delta_y|)
           then
             (Quaternion.from_axis_angle sin cos up
                (-inputs.mouse_delta_x * rotate_amt) *
              Quaternion.from_axis_angle sin cos right
                (-inputs.mouse_delta_y * rotate_amt) * s.1, true)
           else s
  s

/-- Source: `input.rs`, `adjust_camera`.  The `&mut Camera` is modelled by
returning the updated camera next to the source's `bool` result; `sin`
and `cos` abstract the f32 trigonometric functions used by
`Quaternion::from_axis_angle`. -/
def adjust_camera (sin cos : ℚ → ℚ) (cam : Camera)
    (inputs : InputsCommanded) (input_settings : InputSettings) (dt : ℚ) :
    Camera × Bool :=
  let move_amt := input_settings.move_sens * dt
  let rotate_amt := input_settings.rotate_sens * dt
  let rotate_key_amt := input_settings.rotate_key_sens * dt
  let move_amt := if inputs.run then move_amt * input_settings.run_factor
                  else move_amt
  let rotate_key_amt := if inputs.run then
                          rotate_key_amt * input_settings.run_factor
                        else rotate_key_amt
  let mv := move_pass inputs move_amt
  let fwd := cam.orientation.rotate_vec FWD_VEC
  let up := cam.orientation.rotate_vec (UP_VEC * (-1 : ℚ))
  let right := cam.orientation.rotate_vec (RIGHT_VEC * (-1 : ℚ))
  let rot := rotate_pass sin cos inputs fwd up right rotate_amt rotate_key_amt
  let cam := if mv.2 then
               { cam with position :=
                   cam.position + cam.orientation.rotate_vec mv.1 }
             else cam
  let cam := if rot.2 then
               { cam with orientation := rot.1 * cam.orientation }
             else cam
  (cam, mv.2 || rot.2)

/-- Claim-side definition (C2), following the spec's words: a 3x3 rotation
matrix extended to 4x4, columns preserved, fourth row/column
`(0, 0, 0, 1)`. -/
def mat4_of_mat3 (m : Mat3) : Mat4 :=
  Mat4.new (m16
    (m.data 0) (m.data 1) (m.data 2) 0
    (m.data 3) (m.data 4) (m.data 5) 0
    (m.data 6) (m.data 7) (m.data 8) 0
    0 0 0 1)

/-- Claim-side definition (C2), following the spec's words:
`view = inverse(orientation).to_matrix() * translation(-position)`,
with the repository's own `Mat4` multiplication and
`Mat4::new_translation`. -/
def view_mat_claimed (cam : Camera) : Mat4 :=
  mat4_of_mat3 cam.orientation.inverse.to_matrix *
    Mat4.new_translation (-cam.position)

/-- Claim-side definition (C5), following the spec's words: the column-major
entries `[f/aspect, 0,0,0 | 0,f,0,0 | 0,0,far*range_inv,-1 |
0,0,far*near*range_inv,0]`, as a function of (column, row). -/
def perspective_claimed (tan : ℚ → ℚ) (fov_y aspect near far : ℚ) :
    Fin 4 → Fin 4 → ℚ :=
  let f := 1 / tan (fov_y / 2)
  let range_inv := 1 / (near - far)
  fun i j =>
    match i.val, j.val with
    | 0, 0 => f / aspect
    | 1, 1 => f
    | 2, 2 => far * range_inv
    | 2, 3 => -1
    | 3, 2 => far * near * range_inv
    | _, _ => 0

/-- Claim-side definition (C4), following the claim's words: the matrix
built by the cofactor/adjugate method — transpose, `Vec4` column
extraction, 3x3 minors via `truncate_n`, checkerboard sign, division by
the determinant. -/
def Mat4.adjugate_over_det (m : Mat4) : Mat4 :=
  let inv_det := 1 / m.determinant
  let t := m.transpose
  let (t_x, t_y, t_z, t_w) := t.to_cols
  let cf := Mat4.inverse_cf t_x t_y t_z t_w inv_det
  Mat4.new (m16
    (cf 0 0) (cf 0 1) (cf 0 2) (cf 0 3)
    (cf 1 0) (cf 1 1) (cf 1 2) (cf 1 3)
    (cf 2 0) (cf 2 1) (cf 2 2) (cf 2 3)
    (cf 3 0) (cf 3 1) (cf 3 2) (cf 3 3))

/-- Concrete byte encoding used to instantiate the abstract
`f32::to_le_bytes` parameter in closed statements: every float encodes to
four zero bytes (any four-byte encoding works for the layout facts). -/
def enc0 : ℚ → List ℕ := fun _ => [0, 0, 0, 0]

/-- Concrete sine used to instantiate the abstract trigonometric
parameters in closed statements. -/
def sinQ : ℚ → ℚ := fun _ => 0

/-- Concrete cosine used to instantiate the abstract trigonometric
parameters in closed statements. -/
def cosQ : ℚ → ℚ := fun _ => 1

/-- Concrete camera with identity orientation, used in closed statements. -/
def cam0 : Camera :=
  { fov_y := 1
    aspect := 4 / 3
    near := 1
    far := 100
    position := ⟨0, 2, 10⟩
    orientation := Quaternion.new_identity
    proj_mat := Mat4.new_identity }

/-- Concrete camera used for the C2 counterexample: identity orientation,
position `(0, 0, 1)`. -/
def camC2 : Camera :=
  { fov_y := 1
    aspect := 1
    near := 1
    far := 10
    position := ⟨0, 0, 1⟩
    orientation := Quaternion.new_identity
    proj_mat := Mat4.new_identity }

/-- Concrete input settings with move sensitivity 1, used in closed
statements. -/
def settings0 : InputSettings :=
  { move_sens := 1
    rotate_sens := 9 / 20
    rotate_key_sens := 1
    run_factor := 5 }

/-- Inputs with only the forward flag set. -/
def inputsFwd : InputsCommanded :=
  { fwd := true, back := false, left := false, right := false
    up := false, down := false, roll_ccw := false, roll_cw := false
    mouse_delta_x := 0, mouse_delta_y := 0, run := false, free_look := false }

/-- Inputs with every flag false and `mouse_delta_x = 1e-6`, the C8
scenario. -/
def inputsTinyMouse : InputsCommanded :=
  { fwd := false, back := false, left := false, right := false
    up := false, down := false, roll_ccw := false, roll_cw := false
    mouse_delta_x := 1 / 1000000, mouse_delta_y := 0
    run := false, free_look := false }

/-- Concrete `[[f32; 4]; 4]` array for the C10 failing input: entry
`[1][3]` is 5, all others 0. -/
def arrC10 : Fin 4 → Fin 4 → ℚ :=
  fun i j => if i = 1 ∧ j = 3 then 5 else 0

theorem Mat4.ext_data {a b : Mat4} (h : ∀ i, a.data i = b.data i) : a = b := by
  cases a
  cases b
  simp only [Mat4.mk.injEq]
  funext i
  exact h i

@[simp] theorem Vec3.add_x (a b : Vec3) : (a + b).x = a.x + b.x := rfl
@[simp] theorem Vec3.add_y (a b : Vec3) : (a + b).y = a.y + b.y := rfl
@[simp] theorem Vec3.add_z (a b : Vec3) : (a + b).z = a.z + b.z := rfl
@[simp] theorem Vec3.smul_x (v : Vec3) (s : ℚ) : (v * s).x = v.x * s := rfl
@[simp] theorem Vec3.smul_y (v : Vec3) (s : ℚ) : (v * s).y = v.y * s := rfl
@[simp] theorem Vec3.smul_z (v : Vec3) (s : ℚ) : (v * s).z = v.z * s := rfl
@[simp] theorem Vec3.neg_x (v : Vec3) : (-v).x = -v.x := rfl
@[simp] theorem Vec3.neg_y (v : Vec3) : (-v).y = -v.y := rfl
@[simp] theorem Vec3.neg_z (v : Vec3) : (-v).z = -v.z := rfl

@[simp] theorem Quaternion.mul_w (p q : Quaternion) :
    (p * q).w = p.w * q.w - p.x * q.x - p.y * q.y - p.z * q.z := rfl
@[simp] theorem Quaternion.mul_x (p q : Quaternion) :
    (p * q).x = p.w * q.x + p.x * q.w + p.y * q.z - p.z * q.y := rfl
@[simp] theorem Quaternion.mul_y (p q : Quaternion) :
    (p * q).y = p.w * q.y - p.x * q.z + p.y * q.w + p.z * q.x := rfl
@[simp] theorem Quaternion.mul_z (p q : Quaternion) :
    (p * q).z = p.w * q.z + p.x * q.y - p.y * q.x + p.z * q.w := rfl
@[simp] theorem Quaternion.mulv_w (q : Quaternion) (v : Vec3) :
    (q * v).w = -q.x * v.x - q.y * v.y - q.z * v.z := rfl
@[simp] theorem Quaternion.mulv_x (q : Quaternion) (v : Vec3) :
    (q * v).x = q.w * v.x + q.y * v.z - q.z * v.y := rfl
@[simp] theorem Quaternion.mulv_y (q : Quaternion) (v : Vec3) :
    (q * v).y = q.w * v.y - q.x * v.z + q.z * v.x := rfl
@[simp] theorem Quaternion.mulv_z (q : Quaternion) (v : Vec3) :
    (q * v).z = q.w * v.z + q.x * v.y - q.y * v.x := rfl

@[simp] theorem mat4_new_data (f : Fin 16 → ℚ) : (Mat4.new f).data = f := rfl
@[simp] theorem mat3_new_data (f : Fin 9 → ℚ) : (Mat3.new f).data = f := rfl

theorem Mat4.mul_def (a b : Mat4) :
    a * b =
      Mat4.new (m16
        (a.data 0 * b.data 0 + a.data 4 * b.data 1 + a.data 8 * b.data 2 +
          a.data 12 * b.data 3)
        (a.data 0 * b.data 4 + a.data 4 * b.data 5 + a.data 8 * b.data 6 +
          a.data 12 * b.data 7)
        (a.data 0 * b.data 8 + a.data 4 * b.data 9 + a.data 8 * b.data 10 +
          a.data 12 * b.data 11)
        (a.data 0 * b.data 12 + a.data 4 * b.data 13 + a.data 8 * b.data 14 +
          a.data 12 * b.data 15)
        (a.data 1 * b.data 0 + a.data 5 * b.data 1 + a.data 9 * b.data 2 +
          a.data 13 * b.data 3)
        (a.data 1 * b.data 4 + a.data 5 * b.data 5 + a.data 9 * b.data 6 +
          a.data 13 * b.data 7)
        (a.data 1 * b.data 8 + a.data 5 * b.data 9 + a.data 9 * b.data 10 +
          a.data 13 * b.data 11)
        (a.data 1 * b.data 12 + a.data 5 * b.data 13 + a.data 9 * b.data 14 +
          a.data 13 * b.data 15)
        (a.data 2 * b.data 0 + a.data 6 * b.data 1 + a.data 10 * b.data 2 +
          a.data 14 * b.data 3)
        (a.data 2 * b.data 4 + a.data 6 * b.data 5 + a.data 10 * b.data 6 +
          a.data 14 * b.data 7)
        (a.data 2 * b.data 8 + a.data 6 * b.data 9 + a.data 10 * b.data 10 +
          a.data 14 * b.data 11)
        (a.data 2 * b.data 12 + a.data 6 * b.data 13 + a.data 10 * b.data 14 +
          a.data 14 * b.data 15)
        (a.data 3 * b.data 0 + a.data 7 * b.data 1 + a.data 11 * b.data 2 +
          a.data 15 * b.data 3)
        (a.data 3 * b.data 4 + a.data 7 * b.data 5 + a.data 11 * b.data 6 +
          a.data 15 * b.data 7)
        (a.data 3 * b.data 8 + a.data 7 * b.data 9 + a.data 11 * b.data 10 +
          a.data 15 * b.data 11)
        (a.data 3 * b.data 12 + a.data 7 * b.data 13 + a.data 11 * b.data 14 +
          a.data 15 * b.data 15)) := rfl

@[simp] theorem m16_at0 (a0 a1 a2 a3 a4 a5 a6 a7 a8 a9 a10 a11 a12 a13 a14 a15 : ℚ) :
    m16 a0 a1 a2 a3 a4 a5 a6 a7 a8 a9 a10 a11 a12 a13 a14 a15 0 = a0 := rfl
@[simp] theorem m16_at1 (a0 a1 a2 a3 a4 a5 a6 a7 a8 a9 a10 a11 a12 a13 a14 a15 : ℚ) :
    m16 a0 a1 a2 a3 a4 a5 a6 a7 a8 a9 a10 a11 a12 a13 a14 a15 1 = a1 := rfl
@[simp] theorem m16_at2 (a0 a1 a2 a3 a4 a5 a6 a7 a8 a9 a10 a11 a12 a13 a14 a15 : ℚ) :
    m16 a0 a1 a2 a3 a4 a5 a6 a7 a8 a9 a10 a11 a12 a13 a14 a15 2 = a2 := rfl
@[simp] theorem m16_at3 (a0 a1 a2 a3 a4 a5 a6 a7 a8 a9 a10 a11 a12 a13 a14 a15 : ℚ) :
    m16 a0 a1 a2 a3 a4 a5 a6 a7 a8 a9 a10 a11 a12 a13 a14 a15 3 = a3 := rfl
@[simp] theorem m16_at4 (a0 a1 a2 a3 a4 a5 a6 a7 a8 a9 a10 a11 a12 a13 a14 a15 : ℚ) :
    m16 a0 a1 a2 a3 a4 a5 a6 a7 a8 a9 a10 a11 a12 a13 a14 a15 4 = a4 := rfl
@[simp] theorem m16_at5 (a0 a1 a2 a3 a4 a5 a6 a7 a8 a9 a10 a11 a12 a13 a14 a15 : ℚ) :
    m16 a0 a1 a2 a3 a4 a5 a6 a7 a8 a9 a10 a11 a12 a13 a14 a15 5 = a5 := rfl
@[simp] theorem m16_at6 (a0 a1 a2 a3 a4 a5 a6 a7 a8 a9 a10 a11 a12 a13 a14 a15 : ℚ) :
    m16 a0 a1 a2 a3 a4 a5 a6 a7 a8 a9 a10 a11 a12 a13 a14 a15 6 = a6 := rfl
@[simp] theorem m16_at7 (a0 a1 a2 a3 a4 a5 a6 a7 a8 a9 a10 a11 a12 a13 a14 a15 : ℚ) :
    m16 a0 a1 a2 a3 a4 a5 a6 a7 a8 a9 a10 a11 a12 a13 a14 a15 7 = a7 := rfl
@[simp] theorem m16_at8 (a0 a1 a2 a3 a4 a5 a6 a7 a8 a9 a10 a11 a12 a13 a14 a15 : ℚ) :
    m16 a0 a1 a2 a3 a4 a5 a6 a7 a8 a9 a10 a11 a12 a13 a14 a15 8 = a8 := rfl
@[simp] theorem m16_at9 (a0 a1 a2 a3 a4 a5 a6 a7 a8 a9 a10 a11 a12 a13 a14 a15 : ℚ) :
    m16 a0 a1 a2 a3 a4 a5 a6 a7 a8 a9 a10 a11 a12 a13 a14 a15 9 = a9 := rfl
@[simp] theorem m16_at10 (a0 a1 a2 a3 a4 a5 a6 a7 a8 a9 a10 a11 a12 a13 a14 a15 : ℚ) :
    m16 a0 a1 a2 a3 a4 a5 a6 a7 a8 a9 a10 a11 a12 a13 a14 a15 10 = a10 := rfl
@[simp] theorem m16_at11 (a0 a1 a2 a3 a4 a5 a6 a7 a8 a9 a10 a11 a12 a13 a14 a15 : ℚ) :
    m16 a0 a1 a2 a3 a4 a5 a6 a7 a8 a9 a10 a11 a12 a13 a14 a15 11 = a11 := rfl
@[simp] theorem m16_at12 (a0 a1 a2 a3 a4 a5 a6 a7 a8 a9 a10 a11 a12 a13 a14 a15 : ℚ) :
    m16 a0 a1 a2 a3 a4 a5 a6 a7 a8 a9 a10 a11 a12 a13 a14 a15 12 = a12 := rfl
@[simp] theorem m16_at13 (a0 a1 a2 a3 a4 a5 a6 a7 a8 a9 a10 a11 a12 a13 a14 a15 : ℚ) :
    m16 a0 a1 a2 a3 a4 a5 a6 a7 a8 a9 a10 a11 a12 a13 a14 a15 13 = a13 := rfl
@[simp] theorem m16_at14 (a0 a1 a2 a3 a4 a5 a6 a7 a8 a9 a10 a11 a12 a13 a14 a15 : ℚ) :
    m16 a0 a1 a2 a3 a4 a5 a6 a7 a8 a9 a10 a11 a12 a13 a14 a15 14 = a14 := rfl
@[simp] theorem m16_at15 (a0 a1 a2 a3 a4 a5 a6 a7 a8 a9 a10 a11 a12 a13 a14 a15 : ℚ) :
    m16 a0 a1 a2 a3 a4 a5 a6 a7 a8 a9 a10 a11 a12 a13 a14 a15 15 = a15 := rfl

@[simp] theorem m9_at0 (a0 a1 a2 a3 a4 a5 a6 a7 a8 : ℚ) :
    m9 a0 a1 a2 a3 a4 a5 a6 a7 a8 0 = a0 := rfl
@[simp] theorem m9_at1 (a0 a1 a2 a3 a4 a5 a6 a7 a8 : ℚ) :
    m9 a0 a1 a2 a3 a4 a5 a6 a7 a8 1 = a1 := rfl
@[simp] theorem m9_at2 (a0 a1 a2 a3 a4 a5 a6 a7 a8 : ℚ) :
    m9 a0 a1 a2 a3 a4 a5 a6 a7 a8 2 = a2 := rfl
@[simp] theorem m9_at3 (a0 a1 a2 a3 a4 a5 a6 a7 a8 : ℚ) :
    m9 a0 a1 a2 a3 a4 a5 a6 a7 a8 3 = a3 := rfl
@[simp] theorem m9_at4 (a0 a1 a2 a3 a4 a5 a6 a7 a8 : ℚ) :
    m9 a0 a1 a2 a3 a4 a5 a6 a7 a8 4 = a4 := rfl
@[simp] theorem m9_at5 (a0 a1 a2 a3 a4 a5 a6 a7 a8 : ℚ) :
    m9 a0 a1 a2 a3 a4 a5 a6 a7 a8 5 = a5 := rfl
@[simp] theorem m9_at6 (a0 a1 a2 a3 a4 a5 a6 a7 a8 : ℚ) :
    m9 a0 a1 a2 a3 a4 a5 a6 a7 a8 6 = a6 := rfl
@[simp] theorem m9_at7 (a0 a1 a2 a3 a4 a5 a6 a7 a8 : ℚ) :
    m9 a0 a1 a2 a3 a4 a5 a6 a7 a8 7 = a7 := rfl
@[simp] theorem m9_at8 (a0 a1 a2 a3 a4 a5 a6 a7 a8 : ℚ) :
    m9 a0 a1 a2 a3 a4 a5 a6 a7 a8 8 = a8 := rfl

@[simp] theorem Vec3.mk_add_mk (a b c d e f : ℚ) :
    (⟨a, b, c⟩ + ⟨d, e, f⟩ : Vec3) = ⟨a + d, b + e, c + f⟩ := rfl

/-- Vectors with equal components are equal. -/
theorem Vec3.ext_xyz {a b : Vec3} (hx : a.x = b.x) (hy : a.y = b.y)
    (hz : a.z = b.z) : a = b := by
  cases a
  cases b
  simp_all

/-- C10 (code bug): converting the array `arrC10` (entry [1][3] = 5, all
others 0) to a `Mat4` and back does not return the original array: the
`From` impl copies `m[0][3]` into the slots of `m[1][3]` and `m[2][3]`,
so the round trip returns 0 at [1][3]. -/
theorem c10_from_arr_roundtrip_fails :
    Mat4.to_arr (Mat4.from_arr arrC10) 1 3 = 0 ∧ arrC10 1 3 = 5 ∧
    Mat4.to_arr (Mat4.from_arr arrC10) ≠ arrC10 := by
  decide

/-- C2 (counterexample): for the camera at position (0, 0, 1) with identity
orientation, `view_mat()` differs from
`inverse(orientation).to_matrix()` (extended to 4x4) times
`translation(-position)`: the code's entry 14 holds `+position.z` where
the claimed product holds `-position.z` at entry 11. -/
theorem c2_counterexample :
    Camera.view_mat camC2 ≠ view_mat_claimed camC2 := by
  intro h
  have h14 := congrArg (fun m => m.data 14) h
  simp only [Camera.view_mat, view_mat_claimed, mat4_of_mat3,
    Mat4.new_translation, camC2, Quaternion.to_matrix, Quaternion.inverse,
    Quaternion.new_identity, Mat3.new, Vec3.dot, Mat4.mul_def, mat4_new_data,
    mat3_new_data, m16_at14, m16_at0, m16_at1, m16_at2, m16_at3, m16_at4,
    m16_at5, m16_at6, m16_at7, m16_at8, m16_at9, m16_at10, m16_at11,
    m16_at12, m16_at13, m16_at15, m9_at0, m9_at1, m9_at2, m9_at3, m9_at4,
    m9_at5, m9_at6, m9_at7, m9_at8, FWD_VEC, RIGHT_VEC, UP_VEC,
    Vec3.neg_x, Vec3.neg_y, Vec3.neg_z] at h14
  norm_num at h14

/-- C1 (counterexample): with a four-byte-per-float encoding, the packed
camera uniform of a concrete camera is not 80 bytes long (it is 144: the
buffer also carries the inverse projection matrix in bytes [64, 128)). -/
theorem c1_counterexample :
    (CameraUniform.to_bytes enc0 (Camera.to_uniform cam0)).length ≠ 80 := by
  set_option maxRecDepth 4000 in decide

/-- C3 (counterexample): with only the forward flag set and `dt = 0`,
`adjust_camera` returns `true` although neither the position nor the
orientation of the camera changed. -/
theorem c3_counterexample :
    (adjust_camera sinQ cosQ cam0 inputsFwd settings0 0).1 = cam0 ∧
    (adjust_camera sinQ cosQ cam0 inputsFwd settings0 0).2 = true := by
  constructor
  · simp only [adjust_camera, move_pass, rotate_pass, inputsFwd, settings0,
      cam0, Quaternion.rotate_vec, Quaternion.inverse, Quaternion.to_vec,
      Quaternion.new_identity, Vec3.new_zero, FWD_VEC, UP_VEC, RIGHT_VEC]
    norm_num [Camera.mk.injEq, Vec3.mk.injEq]
  · rfl

/-- C8: for every camera, settings and dt, inputs with every flag false and
only `mouse_delta_x = 1e-6` (below the 1e-5 threshold) make
`adjust_camera` return `false` and leave every field of the camera
unchanged. -/
theorem c8_tiny_mouse_delta_no_change (sin cos : ℚ → ℚ) (cam : Camera)
    (st : InputSettings) (dt : ℚ) :
    adjust_camera sin cos cam inputsTinyMouse st dt = (cam, false) := rfl

/-- C7: for every camera, inputs, settings and dt, setting both `fwd` and
`back` (all other fields equal) drives the camera to exactly the same
final state, with the same boolean result, as setting only `fwd`: `back`
is only tested in the `else` branch of `if fwd`. -/
theorem c7_fwd_shadows_back (sin cos : ℚ → ℚ) (cam : Camera)
    (inputs : InputsCommanded) (st : InputSettings) (dt : ℚ) :
    adjust_camera sin cos cam { inputs with fwd := true, back := true } st dt =
      adjust_camera sin cos cam { inputs with fwd := true, back := false } st
        dt := by
  cases inputs
  rfl

/-- C5: for every tangent function, fov_y, aspect, near and far, the
perspective constructor produces exactly the column-major matrix
`[f/aspect,0,0,0 | 0,f,0,0 | 0,0,far*range_inv,-1 | 0,0,far*near*range_inv,0]`
with `f = 1/tan(fov_y/2)` and `range_inv = 1/(near - far)`. -/
theorem c5_perspective_layout (tan : ℚ → ℚ) (fov_y aspect near far : ℚ) :
    Mat4.to_arr (Mat4.new_perspective_rh tan fov_y aspect near far) =
      perspective_claimed tan fov_y aspect near far := by
  funext i j
  fin_cases i <;> fin_cases j <;> rfl

/-- C4: `Mat4::inverse` returns `none` exactly when the source's
`Mat4::determinant` is zero, and otherwise returns the matrix built by the
cofactor/adjugate method (transpose, column extraction, 3x3 minors via
`truncate_n`, checkerboard sign, division by the determinant). -/
theorem c4_inverse_none_iff (m : Mat4) :
    (m.inverse = none ↔ m.determinant = 0) ∧
    (m.determinant ≠ 0 → m.inverse = some m.adjugate_over_det) := by
  by_cases h : m.determinant = 0
  · refine ⟨by simp [Mat4.inverse, h], fun h' => absurd h h'⟩
  · refine ⟨by simp [Mat4.inverse, h], fun _ => ?_⟩
    simp [Mat4.inverse, Mat4.adjugate_over_det, h]

/-- Witness for C4 at the identity matrix, whose determinant 1 is nonzero. -/
theorem c4_witness :
    Mat4.determinant Mat4.new_identity ≠ 0 ∧
    Mat4.inverse Mat4.new_identity =
      some (Mat4.adjugate_over_det Mat4.new_identity) := by
  have hdet : Mat4.determinant Mat4.new_identity ≠ 0 := by
    norm_num [Mat4.determinant, Mat4.new_identity]
  exact ⟨hdet, (c4_inverse_none_iff Mat4.new_identity).2 hdet⟩

/-- C2 (amended): for every camera, `view_mat()` carries the matrix of the
inverse orientation quaternion in its upper-left 3x3 block (the source's
transposed `to_matrix` entries equal `inverse(orientation).to_matrix()`
identically), while the fourth column is
`(-position.dot RIGHT_VEC, -position.dot UP_VEC, position.dot FWD_VEC, 1)`
taken directly — it is not the claimed product with
`translation(-position)`: the translation is never rotated and its z
component enters positively. -/
theorem c2_amended_view_mat (cam : Camera) :
    cam.view_mat = Mat4.new (m16
      (cam.orientation.inverse.to_matrix.data 0)
      (cam.orientation.inverse.to_matrix.data 1)
      (cam.orientation.inverse.to_matrix.data 2) 0
      (cam.orientation.inverse.to_matrix.data 3)
      (cam.orientation.inverse.to_matrix.data 4)
      (cam.orientation.inverse.to_matrix.data 5) 0
      (cam.orientation.inverse.to_matrix.data 6)
      (cam.orientation.inverse.to_matrix.data 7)
      (cam.orientation.inverse.to_matrix.data 8) 0
      (-(cam.position.dot RIGHT_VEC)) (-(cam.position.dot UP_VEC))
      (cam.position.dot FWD_VEC) 1) := by
  apply Mat4.ext_data
  intro i
  fin_cases i <;>
    simp [Camera.view_mat, Quaternion.to_matrix, Quaternion.inverse,
      Mat3.new, m16, m9] <;>
    ring

/-- The movement block reports a move exactly when a directional flag is
set. -/
theorem move_pass_snd (inputs : InputsCommanded) (move_amt : ℚ) :
    (move_pass inputs move_amt).2 =
      (inputs.fwd || inputs.back || inputs.right || inputs.left ||
        inputs.up || inputs.down) := by
  rcases inputs with ⟨f, b, l, r, u, d, rc, rw, mx, my, rn, fl⟩
  cases f <;> cases b <;> cases r <;> cases l <;> cases u <;> cases d <;> rfl

/-- The rotation block reports a rotation exactly when a roll flag is set or
free-look is active with a mouse delta beyond the epsilon. -/
theorem rotate_pass_snd (sin cos : ℚ → ℚ) (inputs : InputsCommanded)
    (fwd up right : Vec3) (rotate_amt rotate_key_amt : ℚ) :
    (rotate_pass sin cos inputs fwd up right rotate_amt rotate_key_amt).2 =
      (inputs.roll_cw || inputs.roll_ccw ||
        (inputs.free_look &&
          decide (inputEps < |inputs.mouse_delta_x| ∨
            inputEps < |inputs.mouse_delta_y|))) := by
  rcases inputs with ⟨f, b, l, r, u, d, rc, rw, mx, my, rn, fl⟩
  cases rc <;> cases rw <;> cases fl <;>
    by_cases hP : (inputEps < |mx| ∨ inputEps < |my|) <;>
    simp [rotate_pass, hP]

/-- C3 (amended): for every camera, inputs, settings and dt,
`adjust_camera` returns `true` exactly when a movement flag is set, a roll
flag is set, or free-look is active with a mouse delta beyond 1e-5 — i.e.
when an input fired, not when the position or orientation actually changed
value (with `dt = 0` the flag can be `true` while the camera is
unchanged). -/
theorem c3_amended_changed_flag (sin cos : ℚ → ℚ) (cam : Camera)
    (inputs : InputsCommanded) (st : InputSettings) (dt : ℚ) :
    ((adjust_camera sin cos cam inputs st dt).2 = true) ↔
      (inputs.fwd = true ∨ inputs.back = true ∨ inputs.right = true ∨
       inputs.left = true ∨ inputs.up = true ∨ inputs.down = true ∨
       inputs.roll_cw = true ∨ inputs.roll_ccw = true ∨
       (inputs.free_look = true ∧
         (inputEps < |inputs.mouse_delta_x| ∨
          inputEps < |inputs.mouse_delta_y|))) := by
  have h2 : (adjust_camera sin cos cam inputs st dt).2 =
      ((move_pass inputs (if inputs.run then
          st.move_sens * dt * st.run_factor else st.move_sens * dt)).2 ||
        (rotate_pass sin cos inputs (cam.orientation.rotate_vec FWD_VEC)
          (cam.orientation.rotate_vec (UP_VEC * (-1 : ℚ)))
          (cam.orientation.rotate_vec (RIGHT_VEC * (-1 : ℚ)))
          (st.rotate_sens * dt)
          (if inputs.run then st.rotate_key_sens * dt * st.run_factor
           else st.rotate_key_sens * dt)).2) := rfl
  rw [h2, move_pass_snd, rotate_pass_snd]
  simp only [Bool.or_eq_true, Bool.and_eq_true, decide_eq_true_iff]
  tauto

/-- C9: for every camera, inputs, settings and dt, `adjust_camera` leaves
`fov_y`, `aspect`, `near`, `far` and `proj_mat` untouched — only
`position` and `orientation` can be mutated. -/
theorem c9_only_pose_mutated (sin cos : ℚ → ℚ) (cam : Camera)
    (inputs : InputsCommanded) (st : InputSettings) (dt : ℚ) :
    (adjust_camera sin cos cam inputs st dt).1.fov_y = cam.fov_y ∧
    (adjust_camera sin cos cam inputs st dt).1.aspect = cam.aspect ∧
    (adjust_camera sin cos cam inputs st dt).1.near = cam.near ∧
    (adjust_camera sin cos cam inputs st dt).1.far = cam.far ∧
    (adjust_camera sin cos cam inputs st dt).1.proj_mat = cam.proj_mat := by
  refine ⟨?_, ?_, ?_, ?_, ?_⟩ <;>
    (simp only [adjust_camera]; split_ifs <;> rfl)

/-- C6: with only the forward flag set, identity orientation, `dt = 1`,
move sensitivity 1 and the run modifier inactive, one `adjust_camera` call
moves the position by exactly `FWD_VEC = (0, 0, 1)`, changes nothing else,
and returns `true`. -/
theorem c6_fwd_unit_step (sin cos : ℚ → ℚ) (cam : Camera)
    (st : InputSettings) (hq : cam.orientation = Quaternion.new_identity)
    (hm : st.move_sens = 1) :
    adjust_camera sin cos cam inputsFwd st 1 =
      ({ cam with position := cam.position + FWD_VEC }, true) := by
  simp only [adjust_camera, move_pass, rotate_pass, inputsFwd, hq, hm]
  norm_num [Quaternion.rotate_vec, Quaternion.inverse, Quaternion.to_vec,
    Quaternion.new_identity, Vec3.new_zero, FWD_VEC, Prod.ext_iff,
    Camera.mk.injEq]

/-- Witness for C6 at a concrete camera and settings. -/
theorem c6_witness :
    adjust_camera sinQ cosQ cam0 inputsFwd settings0 1 =
      ({ cam0 with position := cam0.position + FWD_VEC }, true) :=
  c6_fwd_unit_step sinQ cosQ cam0 settings0 rfl rfl

/-- C1 (amended): for every four-byte float encoding and every camera, the
packed uniform is `CAM_UNIFORM_SIZE = 144` bytes: bytes [0, 64) are the 16
proj-view floats in data order, bytes [64, 128) the (identity) inverse
projection matrix, bytes [128, 140) the position x, y, z in order, and
bytes [140, 144) the pad float 1.0. -/
theorem c1_amended (enc : ℚ → List ℕ) (cam : Camera)
    (henc : ∀ q, (enc q).length = 4) :
    (CameraUniform.to_bytes enc (Camera.to_uniform cam)).length =
      CAM_UNIFORM_SIZE ∧
    CAM_UNIFORM_SIZE = 144 ∧
    (CameraUniform.to_bytes enc (Camera.to_uniform cam)).take 64 =
      Mat4.to_bytes enc (Camera.to_uniform cam).proj_view_mat ∧
    ((CameraUniform.to_bytes enc (Camera.to_uniform cam)).drop 64).take 64 =
      Mat4.to_bytes enc Mat4.new_identity ∧
    ((CameraUniform.to_bytes enc (Camera.to_uniform cam)).drop 128).take 12 =
      enc cam.position.x ++ enc cam.position.y ++ enc cam.position.z ∧
    (CameraUniform.to_bytes enc (Camera.to_uniform cam)).drop 140 = enc 1 := by
  have hm : ∀ m : Mat4, (Mat4.to_bytes enc m).length = 64 := fun m => by
    simp [Mat4.to_bytes, List.length_append, henc]
  have hb : CameraUniform.to_bytes enc (Camera.to_uniform cam) =
      Mat4.to_bytes enc (Camera.to_uniform cam).proj_view_mat ++
        (Mat4.to_bytes enc Mat4.new_identity ++
          (enc cam.position.x ++ (enc cam.position.y ++
            (enc cam.position.z ++ enc 1)))) := by
    simp [CameraUniform.to_bytes, Camera.to_uniform, List.append_assoc]
  refine ⟨?_, rfl, ?_, ?_, ?_, ?_⟩
  · rw [hb]
    simp [List.length_append, hm, henc, CAM_UNIFORM_SIZE, MAT4_SIZE, F32_SIZE]
  · rw [hb, List.take_left' (hm _)]
  · rw [hb, List.drop_left' (hm _), List.take_left' (hm _)]
  · rw [hb, show (128 : ℕ) = 64 + 64 from rfl, ← List.drop_drop,
      List.drop_left' (hm _), List.drop_left' (hm _),
      show enc cam.position.x ++ (enc cam.position.y ++
          (enc cam.position.z ++ enc 1)) =
        (enc cam.position.x ++ (enc cam.position.y ++ enc cam.position.z)) ++
          enc 1 by simp [List.append_assoc]]
    rw [List.take_left' (by simp [List.length_append, henc])]
    simp [List.append_assoc]
  · rw [hb, show (140 : ℕ) = 64 + 76 from rfl, ← List.drop_drop,
      List.drop_left' (hm _), show (76 : ℕ) = 64 + 12 from rfl,
      ← List.drop_drop, List.drop_left' (hm _),
      show (12 : ℕ) = 4 + 8 from rfl, ← List.drop_drop,
      List.drop_left' (henc _), show (8 : ℕ) = 4 + 4 from rfl,
      ← List.drop_drop, List.drop_left' (henc _), List.drop_left' (henc _)]

/-- Witness for C1 (amended) at the zero encoding and a concrete camera. -/
theorem c1_amended_witness :
    (CameraUniform.to_bytes enc0 (Camera.to_uniform cam0)).length =
      CAM_UNIFORM_SIZE :=
  (c1_amended enc0 cam0 (fun _ => rfl)).1

end Gfx
